import Mathlib

/-!
Verification of the ytsum YouTube transcript downloader.

The definitions below are a shallow embedding of
`src/youtube_summarizer/downloader.py`:

* `extract_video_id` embeds the identifier resolver, including the exact
  semantics of Python's `re.match(r'^[a-zA-Z0-9_-]{11}$', s)` (whose `$`
  also matches just before a single trailing newline) and of
  `re.search` over the three URL extraction patterns (leftmost match,
  alternatives tried in order at each position, fixed-width capture).
* `format_timestamp` embeds the timestamp formatter; Python floats are
  idealised as rationals, `//` is `pyFloorDiv`, `%` is `pyMod` (result has
  the sign of the divisor), and `int()` is `pyInt` (truncation toward zero).
* `format_transcript` embeds the transcript renderer; `joinLines` embeds
  Python's `str.join`.
* `download_transcript` embeds the fetch orchestrator; the external
  `youtube_transcript_api` service is an explicit oracle environment
  (`ServiceEnv`), exceptions raised by the service are `none` / `Except.error`
  values, and `print(...); sys.exit(1)` is the `DlResult.exit 1` outcome.
-/

namespace Ytsum

/-! ## Identifier resolver (`extract_video_id`) -/

/-- The identifier alphabet `[a-zA-Z0-9_-]` of the regular expressions. -/
def isIdChar (c : Char) : Bool :=
  ('a' ≤ c && c ≤ 'z') || ('A' ≤ c && c ≤ 'Z') || ('0' ≤ c && c ≤ '9') ||
    c == '_' || c == '-'

/-- Match a literal character sequence at the head of the input, returning
the remaining input on success (the escaped literal part of the regexes). -/
def matchLit : List Char → List Char → Option (List Char)
  | [], rest => some rest
  | _ :: _, [] => none
  | l :: ls, c :: cs => if c = l then matchLit ls cs else none

/-- Consume exactly `n` identifier-alphabet characters, returning them; this
is the `([a-zA-Z0-9_-]{11})` capture group of the regexes. -/
def takeIdChars : Nat → List Char → Option (List Char)
  | 0, _ => some []
  | _ + 1, [] => none
  | n + 1, c :: cs =>
    if isIdChar c then (takeIdChars n cs).map (fun t => c :: t) else none

/-- Try, at the current position, each alternative literal of one pattern in
order, followed by the 11-character capture group (regex alternation with
backtracking into the next alternative on failure). -/
def tryAlts : List (List Char) → List Char → Option (List Char)
  | [], _ => none
  | lit :: lits, cs =>
    match matchLit lit cs with
    | some rest =>
      match takeIdChars 11 rest with
      | some cap => some cap
      | none => tryAlts lits cs
    | none => tryAlts lits cs

/-- Python `re.search` for one pattern: scan positions left to right and
return the first successful capture. -/
def searchPat (alts : List (List Char)) : List Char → Option (List Char)
  | [] => tryAlts alts []
  | c :: cs =>
    match tryAlts alts (c :: cs) with
    | some cap => some cap
    | none => searchPat alts cs

/-- First pattern: `(?:youtube\.com\/watch\?v=|youtu\.be\/)([a-zA-Z0-9_-]{11})`. -/
def pat1 : List (List Char) := ["youtube.com/watch?v=".data, "youtu.be/".data]

/-- Second pattern: `youtube\.com\/embed\/([a-zA-Z0-9_-]{11})`. -/
def pat2 : List (List Char) := ["youtube.com/embed/".data]

/-- Third pattern: `youtube\.com\/v\/([a-zA-Z0-9_-]{11})`. -/
def pat3 : List (List Char) := ["youtube.com/v/".data]

/-- Run the patterns in source order, returning the first capture (the
`for pattern in patterns` loop). -/
def searchPatterns : List (List (List Char)) → List Char → Option (List Char)
  | [], _ => none
  | p :: ps, cs =>
    match searchPat p cs with
    | some cap => some cap
    | none => searchPatterns ps cs

/-- Python `re.match(r'^[a-zA-Z0-9_-]{11}$', s)` as a Boolean: the anchor `$`
matches at the end of the string or just before a single trailing newline, so
both an exact 11-character identifier and an 11-character identifier followed
by one `'\n'` are accepted. -/
def pyMatchBare (cs : List Char) : Bool :=
  (cs.length == 11 && cs.all isIdChar) ||
    (cs.length == 12 && (cs.take 11).all isIdChar && cs.getLast? == some '\n')

/-- Body of `extract_video_id`, over the character list of the input. -/
def extractCore (cs : List Char) : Option (List Char) :=
  if pyMatchBare cs then some cs
  else searchPatterns [pat1, pat2, pat3] cs

/-- `extract_video_id(url_or_id)` from `downloader.py`. -/
def extract_video_id (url_or_id : String) : Option String :=
  (extractCore url_or_id.data).map (fun cs => String.mk cs)

/-- Claim-side matcher, from the spec's words: an anchored, full-string match
of `^[A-Za-z0-9_-]{11}$` (exactly 11 identifier characters, nothing else). -/
def fullMatch11 (cs : List Char) : Bool :=
  cs.length == 11 && cs.all isIdChar

/-- Claim-side description of the pattern order: attempt watch/short-link,
then embed, then `/v/`, returning the first successful capture. -/
def patternOrder (cs : List Char) : Option (List Char) :=
  match searchPat pat1 cs with
  | some cap => some cap
  | none =>
    match searchPat pat2 cs with
    | some cap => some cap
    | none => searchPat pat3 cs

/-! ## Timestamp formatter (`format_timestamp`) -/

/-- Python `int()` on a real value: truncation toward zero. -/
def pyInt (q : ℚ) : Int := if 0 ≤ q then ⌊q⌋ else ⌈q⌉

/-- Python `//` (floor division) on reals, as a rational-valued result. -/
def pyFloorDiv (a b : ℚ) : ℚ := ((⌊a / b⌋ : Int) : ℚ)

/-- Python `%` on reals: `a - b * floor(a / b)`, the result having the sign
of the divisor. -/
def pyMod (a b : ℚ) : ℚ := a - b * ((⌊a / b⌋ : Int) : ℚ)

/-- Python `f"{n:02d}"`: decimal rendering left-padded with zeros to width 2. -/
def pad2 (n : Int) : String :=
  if (toString n).length < 2 then "0" ++ toString n else toString n

/-- `format_timestamp(seconds)` from `downloader.py`:
`hours = int(seconds // 3600)`, `minutes = int((seconds % 3600) // 60)`,
`secs = int(seconds % 60)`, rendered `HH:MM:SS` when `hours > 0`
else `MM:SS`. -/
def format_timestamp (seconds : ℚ) : String :=
  if pyInt (pyFloorDiv seconds 3600) > 0 then
    pad2 (pyInt (pyFloorDiv seconds 3600)) ++ ":" ++
      pad2 (pyInt (pyFloorDiv (pyMod seconds 3600) 60)) ++ ":" ++
      pad2 (pyInt (pyMod seconds 60))
  else
    pad2 (pyInt (pyFloorDiv (pyMod seconds 3600) 60)) ++ ":" ++
      pad2 (pyInt (pyMod seconds 60))

/-- Mathematical `mod` on rationals, used by the claim's formulas. -/
def qmod (a b : ℚ) : ℚ := a - b * ((⌊a / b⌋ : Int) : ℚ)

/-- Claim-side timestamp formatter, written from the spec's words:
`hours = floor(s/3600)`, `minutes = floor((s mod 3600)/60)`,
`secs = floor(s mod 60)`; `HH:MM:SS` zero-padded when `hours > 0`,
else `MM:SS`. -/
def timestamp_spec (s : ℚ) : String :=
  if 0 < (⌊s / 3600⌋ : Int) then
    pad2 ⌊s / 3600⌋ ++ ":" ++ pad2 ⌊qmod s 3600 / 60⌋ ++ ":" ++ pad2 ⌊qmod s 60⌋
  else
    pad2 ⌊qmod s 3600 / 60⌋ ++ ":" ++ pad2 ⌊qmod s 60⌋

/-! ## Transcript renderer (`format_transcript`) -/

/-- One raw transcript entry as produced by `FetchedTranscript.to_raw_data()`:
a dict with `start`, `text`, and (optionally) `duration`. -/
structure Entry where
  start : ℚ
  text : String
  duration : Option ℚ
deriving DecidableEq

/-- Python `sep.join(lines)`: empty for `[]`, otherwise the first line
followed by `sep ++ line` for each further line. -/
def joinLines (sep : String) : List String → String
  | [] => ""
  | x :: xs => xs.foldl (fun acc y => acc ++ sep ++ y) x

/-- `format_transcript(transcript_data, include_timestamps)` from
`downloader.py`: build the `lines` list in a loop, then join with `'\n'`. -/
def format_transcript (transcript_data : List Entry)
    (include_timestamps : Bool) : String :=
  joinLines "\n"
    (transcript_data.foldl
      (fun lines entry =>
        if include_timestamps then
          lines ++ ["[" ++ format_timestamp entry.start ++ "] " ++ entry.text]
        else
          lines ++ [entry.text])
      [])

/-- Claim-side line for one segment: `"[<formatted-start>] <text>"` with
timestamps, else the text verbatim. -/
def renderLine (include_timestamps : Bool) (e : Entry) : String :=
  if include_timestamps then
    "[" ++ format_timestamp e.start ++ "] " ++ e.text
  else
    e.text

/-- Claim-side renderer: one line per segment in input order, joined by a
single newline with no trailing newline. -/
def render_spec (transcript_data : List Entry)
    (include_timestamps : Bool) : String :=
  joinLines "\n" (transcript_data.map (renderLine include_timestamps))

/-! ## Fetch orchestrator (`download_transcript`) -/

/-- A transcript handle (one entry of the service's listing); its `fetch()`
either returns the raw segment list or raises. -/
structure TranscriptHandle where
  fetchResult : Except String (List Entry)

/-- The service's `TranscriptList`: `find_transcript([lang])` as a lookup
function (`none` models the raised exception), `find_generated_transcript(['en'])`
as a single lookup, and the listing's iteration order. -/
structure TranscriptList where
  find_transcript : String → Option TranscriptHandle
  find_generated_en : Option TranscriptHandle
  available : List TranscriptHandle

/-- The external world `download_transcript` interacts with: whether
`youtube_transcript_api` imports, and what `api.list(video_id)` returns for
the requested video. -/
structure ServiceEnv where
  importOk : Bool
  listResult : Except String TranscriptList

/-- Outcome of `download_transcript`: the returned string, or process
termination (`print(...); sys.exit(code)`). -/
inductive DlResult where
  | ok (transcript : String)
  | exit (code : Nat)
deriving DecidableEq

/-- The `for lang in languages: try: ... break; except: continue` loop:
first language whose lookup succeeds, else `none`. -/
def tryLanguages (tl : TranscriptList) : List String → Option TranscriptHandle
  | [] => none
  | lang :: rest =>
    match tl.find_transcript lang with
    | some t => some t
    | none => tryLanguages tl rest

/-- The value held by the `transcript` variable after the selection
branches of `download_transcript`: with a (truthy) preference list, the
first preferred language that succeeds, else the generated-English lookup,
else the first listed transcript; with no preference, the generated-English
lookup, else the first listed transcript. `none` means the variable is still
Python `None`. -/
def selectTranscript (tl : TranscriptList) (languages : List String) :
    Option TranscriptHandle :=
  if !languages.isEmpty then
    match tryLanguages tl languages with
    | some t => some t
    | none =>
      match tl.find_generated_en with
      | some t => some t
      | none => tl.available.head?
  else
    match tl.find_generated_en with
    | some t => some t
    | none => tl.available.head?

/-- `download_transcript(video_id, languages)` from `downloader.py`.
`languages = []` models both `None` and an empty list (both falsy in
Python). A `none` selected transcript models the `AttributeError` raised by
`None.fetch()`, caught by the outer handler. -/
def download_transcript (env : ServiceEnv) (languages : List String) : DlResult :=
  if !env.importOk then DlResult.exit 1
  else
    match env.listResult with
    | Except.error _ => DlResult.exit 1
    | Except.ok transcript_list =>
      match selectTranscript transcript_list languages with
      | none => DlResult.exit 1
      | some t =>
        match t.fetchResult with
        | Except.error _ => DlResult.exit 1
        | Except.ok transcript_data =>
          DlResult.ok (format_transcript transcript_data false)

/-! ## Helper lemmas: resolver scanning -/

lemma matchLit_append_self (lit rest : List Char) :
    matchLit lit (lit ++ rest) = some rest := by
  induction lit with
  | nil => rfl
  | cons l ls ih => simp [matchLit, ih]

lemma matchLit_cons_ne {c l : Char} (h : c ≠ l) (ls cs : List Char) :
    matchLit (l :: ls) (c :: cs) = none := by
  simp [matchLit, h]

lemma takeIdChars_append {cs : List Char} {n : Nat} (rest : List Char)
    (hlen : cs.length = n) (hid : cs.all isIdChar = true) :
    takeIdChars n (cs ++ rest) = some cs := by
  induction cs generalizing n with
  | nil => subst hlen; rfl
  | cons c cs ih =>
    subst hlen
    simp only [List.all_cons, Bool.and_eq_true] at hid
    simp [takeIdChars, hid.1, ih rfl hid.2]

lemma takeIdChars_shape {n : Nat} {cs cap : List Char}
    (h : takeIdChars n cs = some cap) :
    cap.length = n ∧ cap.all isIdChar = true := by
  induction n generalizing cs cap with
  | zero =>
    simp only [takeIdChars, Option.some.injEq] at h
    subst h; exact ⟨rfl, rfl⟩
  | succ n ih =>
    cases cs with
    | nil => simp [takeIdChars] at h
    | cons c cs =>
      simp only [takeIdChars] at h
      by_cases hc : isIdChar c
      · simp only [hc, if_true, Option.map_eq_some'] at h
        obtain ⟨t, ht, hcap⟩ := h
        obtain ⟨h1, h2⟩ := ih ht
        subst hcap
        simp [h1, h2, hc]
      · simp [hc] at h

lemma tryAlts_cons_hit {lit : List Char} {cs rest cap : List Char}
    (lits : List (List Char))
    (h1 : matchLit lit cs = some rest) (h2 : takeIdChars 11 rest = some cap) :
    tryAlts (lit :: lits) cs = some cap := by
  simp [tryAlts, h1, h2]

lemma tryAlts_cons_skip {lit : List Char} {cs : List Char}
    (lits : List (List Char)) (h : matchLit lit cs = none) :
    tryAlts (lit :: lits) cs = tryAlts lits cs := by
  simp [tryAlts, h]

lemma tryAlts_shape {alts : List (List Char)} {cs cap : List Char}
    (h : tryAlts alts cs = some cap) :
    cap.length = 11 ∧ cap.all isIdChar = true := by
  induction alts with
  | nil => simp [tryAlts] at h
  | cons lit lits ih =>
    simp only [tryAlts] at h
    cases hm : matchLit lit cs with
    | none => simp only [hm] at h; exact ih h
    | some rest =>
      simp only [hm] at h
      cases ht : takeIdChars 11 rest with
      | none => simp only [ht] at h; exact ih h
      | some cap2 =>
        simp only [ht, Option.some.injEq] at h
        subst h
        exact takeIdChars_shape ht

lemma searchPat_cons_hit {alts : List (List Char)} {c : Char}
    {cs cap : List Char} (h : tryAlts alts (c :: cs) = some cap) :
    searchPat alts (c :: cs) = some cap := by
  simp [searchPat, h]

lemma searchPat_cons_skip {alts : List (List Char)} {c : Char}
    {cs : List Char} (h : tryAlts alts (c :: cs) = none) :
    searchPat alts (c :: cs) = searchPat alts cs := by
  simp [searchPat, h]

lemma searchPat_shape {alts : List (List Char)} {cs cap : List Char}
    (h : searchPat alts cs = some cap) :
    cap.length = 11 ∧ cap.all isIdChar = true := by
  induction cs with
  | nil =>
    simp only [searchPat] at h
    exact tryAlts_shape h
  | cons c cs ih =>
    simp only [searchPat] at h
    cases ht : tryAlts alts (c :: cs) with
    | none => simp only [ht] at h; exact ih h
    | some cap2 =>
      simp only [ht, Option.some.injEq] at h
      subst h
      exact tryAlts_shape ht

lemma searchPat_skip_pre {alts : List (List Char)} {pre : List Char}
    (rest : List Char)
    (h : ∀ c ∈ pre, ∀ cs, tryAlts alts (c :: cs) = none) :
    searchPat alts (pre ++ rest) = searchPat alts rest := by
  induction pre with
  | nil => rfl
  | cons c pre ih =>
    have hc := h c (List.mem_cons_self c pre)
    rw [List.cons_append, searchPat_cons_skip (hc _)]
    exact ih (fun d hd => h d (List.mem_cons_of_mem c hd))

lemma tryAlts_pat1_head {c : Char} (hc : c ≠ 'y') (cs : List Char) :
    tryAlts pat1 (c :: cs) = none := by
  have e1 : pat1 = ["youtube.com/watch?v=".data, "youtu.be/".data] := rfl
  have e2 : ("youtube.com/watch?v=").data =
      'y' :: ("outube.com/watch?v=").data := rfl
  have e3 : ("youtu.be/").data = 'y' :: ("outu.be/").data := rfl
  rw [e1]
  rw [tryAlts_cons_skip _ (e2 ▸ matchLit_cons_ne hc _ _)]
  rw [tryAlts_cons_skip _ (e3 ▸ matchLit_cons_ne hc _ _)]
  rfl

lemma tryAlts_pat2_head {c : Char} (hc : c ≠ 'y') (cs : List Char) :
    tryAlts pat2 (c :: cs) = none := by
  have e1 : pat2 = ["youtube.com/embed/".data] := rfl
  have e2 : ("youtube.com/embed/").data = 'y' :: ("outube.com/embed/").data := rfl
  rw [e1, tryAlts_cons_skip _ (e2 ▸ matchLit_cons_ne hc _ _)]
  rfl

lemma tryAlts_pat3_head {c : Char} (hc : c ≠ 'y') (cs : List Char) :
    tryAlts pat3 (c :: cs) = none := by
  have e1 : pat3 = ["youtube.com/v/".data] := rfl
  have e2 : ("youtube.com/v/").data = 'y' :: ("outube.com/v/").data := rfl
  rw [e1, tryAlts_cons_skip _ (e2 ▸ matchLit_cons_ne hc _ _)]
  rfl

lemma pyMatchBare_of_long {cs : List Char} (h : 12 < cs.length) :
    pyMatchBare cs = false := by
  have h11 : (cs.length == 11) = false := by
    simp only [beq_eq_false_iff_ne, ne_eq]; omega
  have h12 : (cs.length == 12) = false := by
    simp only [beq_eq_false_iff_ne, ne_eq]; omega
  simp [pyMatchBare, h11, h12]

/-! ## Helper lemmas: the three URL shapes -/

lemma noY_www : ∀ c ∈ ("https://www.").data, c ≠ 'y' := by decide

lemma noY_scheme : ∀ c ∈ ("https://").data, c ≠ 'y' := by decide

lemma noY_watchTail : ∀ c ∈ ("outube.com/watch?v=").data, c ≠ 'y' := by decide

lemma noY_embedTail : ∀ c ∈ ("outube.com/embed/").data, c ≠ 'y' := by decide

lemma noY_vTail : ∀ c ∈ ("outube.com/v/").data, c ≠ 'y' := by decide

lemma searchPat_pat1_watch {id : List Char} (suffix : List Char)
    (hlen : id.length = 11) (hid : id.all isIdChar = true) :
    searchPat pat1 (("https://www.youtube.com/watch?v=").data ++ (id ++ suffix)) =
      some id := by
  have hsplit : ("https://www.youtube.com/watch?v=").data ++ (id ++ suffix) =
      ("https://www.").data ++ (("youtube.com/watch?v=").data ++ (id ++ suffix)) := rfl
  rw [hsplit, searchPat_skip_pre _
    (fun c hc cs => tryAlts_pat1_head (noY_www c hc) cs)]
  have hhit : tryAlts pat1 (("youtube.com/watch?v=").data ++ (id ++ suffix)) =
      some id := by
    have e1 : pat1 = [("youtube.com/watch?v=").data, ("youtu.be/").data] := rfl
    rw [e1]
    exact tryAlts_cons_hit _ (matchLit_append_self _ _)
      (takeIdChars_append suffix hlen hid)
  have hcons : ("youtube.com/watch?v=").data ++ (id ++ suffix) =
      'y' :: (("outube.com/watch?v=").data ++ (id ++ suffix)) := rfl
  rw [hcons] at hhit ⊢
  exact searchPat_cons_hit hhit

lemma searchPat_pat1_short {id : List Char} (suffix : List Char)
    (hlen : id.length = 11) (hid : id.all isIdChar = true) :
    searchPat pat1 (("https://youtu.be/").data ++ (id ++ suffix)) = some id := by
  have hsplit : ("https://youtu.be/").data ++ (id ++ suffix) =
      ("https://").data ++ (("youtu.be/").data ++ (id ++ suffix)) := rfl
  rw [hsplit, searchPat_skip_pre _
    (fun c hc cs => tryAlts_pat1_head (noY_scheme c hc) cs)]
  have hhit : tryAlts pat1 (("youtu.be/").data ++ (id ++ suffix)) = some id := by
    have e1 : pat1 = [("youtube.com/watch?v=").data, ("youtu.be/").data] := rfl
    have hmiss : matchLit ("youtube.com/watch?v=").data
        (("youtu.be/").data ++ (id ++ suffix)) = none := rfl
    rw [e1, tryAlts_cons_skip _ hmiss]
    exact tryAlts_cons_hit _ (matchLit_append_self _ _)
      (takeIdChars_append suffix hlen hid)
  have hcons : ("youtu.be/").data ++ (id ++ suffix) =
      'y' :: (("outu.be/").data ++ (id ++ suffix)) := rfl
  rw [hcons] at hhit ⊢
  exact searchPat_cons_hit hhit

lemma searchPat_pat1_embedStr (tail : List Char)
    (h : searchPat pat1 tail = none) :
    searchPat pat1 (("https://www.youtube.com/embed/").data ++ tail) = none := by
  have hsplit : ("https://www.youtube.com/embed/").data ++ tail =
      ("https://www.").data ++ (("youtube.com/embed/").data ++ tail) := rfl
  rw [hsplit, searchPat_skip_pre _
    (fun c hc cs => tryAlts_pat1_head (noY_www c hc) cs)]
  have hmiss : tryAlts pat1 (("youtube.com/embed/").data ++ tail) = none := by
    have e1 : pat1 = [("youtube.com/watch?v=").data, ("youtu.be/").data] := rfl
    have h1 : matchLit ("youtube.com/watch?v=").data
        (("youtube.com/embed/").data ++ tail) = none := rfl
    have h2 : matchLit ("youtu.be/").data
        (("youtube.com/embed/").data ++ tail) = none := rfl
    rw [e1, tryAlts_cons_skip _ h1, tryAlts_cons_skip _ h2]
    rfl
  have hcons : ("youtube.com/embed/").data ++ tail =
      'y' :: (("outube.com/embed/").data ++ tail) := rfl
  rw [hcons] at hmiss ⊢
  rw [searchPat_cons_skip hmiss, searchPat_skip_pre _
    (fun c hc cs => tryAlts_pat1_head (noY_embedTail c hc) cs)]
  exact h

lemma searchPat_pat1_vStr (tail : List Char)
    (h : searchPat pat1 tail = none) :
    searchPat pat1 (("https://www.youtube.com/v/").data ++ tail) = none := by
  have hsplit : ("https://www.youtube.com/v/").data ++ tail =
      ("https://www.").data ++ (("youtube.com/v/").data ++ tail) := rfl
  rw [hsplit, searchPat_skip_pre _
    (fun c hc cs => tryAlts_pat1_head (noY_www c hc) cs)]
  have hmiss : tryAlts pat1 (("youtube.com/v/").data ++ tail) = none := by
    have e1 : pat1 = [("youtube.com/watch?v=").data, ("youtu.be/").data] := rfl
    have h1 : matchLit ("youtube.com/watch?v=").data
        (("youtube.com/v/").data ++ tail) = none := rfl
    have h2 : matchLit ("youtu.be/").data
        (("youtube.com/v/").data ++ tail) = none := rfl
    rw [e1, tryAlts_cons_skip _ h1, tryAlts_cons_skip _ h2]
    rfl
  have hcons : ("youtube.com/v/").data ++ tail =
      'y' :: (("outube.com/v/").data ++ tail) := rfl
  rw [hcons] at hmiss ⊢
  rw [searchPat_cons_skip hmiss, searchPat_skip_pre _
    (fun c hc cs => tryAlts_pat1_head (noY_vTail c hc) cs)]
  exact h

lemma searchPat_pat2_embed {id : List Char} (suffix : List Char)
    (hlen : id.length = 11) (hid : id.all isIdChar = true) :
    searchPat pat2 (("https://www.youtube.com/embed/").data ++ (id ++ suffix)) =
      some id := by
  have hsplit : ("https://www.youtube.com/embed/").data ++ (id ++ suffix) =
      ("https://www.").data ++ (("youtube.com/embed/").data ++ (id ++ suffix)) := rfl
  rw [hsplit, searchPat_skip_pre _
    (fun c hc cs => tryAlts_pat2_head (noY_www c hc) cs)]
  have hhit : tryAlts pat2 (("youtube.com/embed/").data ++ (id ++ suffix)) =
      some id := by
    have e1 : pat2 = [("youtube.com/embed/").data] := rfl
    rw [e1]
    exact tryAlts_cons_hit _ (matchLit_append_self _ _)
      (takeIdChars_append suffix hlen hid)
  have hcons : ("youtube.com/embed/").data ++ (id ++ suffix) =
      'y' :: (("outube.com/embed/").data ++ (id ++ suffix)) := rfl
  rw [hcons] at hhit ⊢
  exact searchPat_cons_hit hhit

lemma searchPat_pat2_vStr (tail : List Char)
    (h : searchPat pat2 tail = none) :
    searchPat pat2 (("https://www.youtube.com/v/").data ++ tail) = none := by
  have hsplit : ("https://www.youtube.com/v/").data ++ tail =
      ("https://www.").data ++ (("youtube.com/v/").data ++ tail) := rfl
  rw [hsplit, searchPat_skip_pre _
    (fun c hc cs => tryAlts_pat2_head (noY_www c hc) cs)]
  have hmiss : tryAlts pat2 (("youtube.com/v/").data ++ tail) = none := by
    have e1 : pat2 = [("youtube.com/embed/").data] := rfl
    have h1 : matchLit ("youtube.com/embed/").data
        (("youtube.com/v/").data ++ tail) = none := rfl
    rw [e1, tryAlts_cons_skip _ h1]
    rfl
  have hcons : ("youtube.com/v/").data ++ tail =
      'y' :: (("outube.com/v/").data ++ tail) := rfl
  rw [hcons] at hmiss ⊢
  rw [searchPat_cons_skip hmiss, searchPat_skip_pre _
    (fun c hc cs => tryAlts_pat2_head (noY_vTail c hc) cs)]
  exact h

lemma searchPat_pat3_vStr {id : List Char} (suffix : List Char)
    (hlen : id.length = 11) (hid : id.all isIdChar = true) :
    searchPat pat3 (("https://www.youtube.com/v/").data ++ (id ++ suffix)) =
      some id := by
  have hsplit : ("https://www.youtube.com/v/").data ++ (id ++ suffix) =
      ("https://www.").data ++ (("youtube.com/v/").data ++ (id ++ suffix)) := rfl
  rw [hsplit, searchPat_skip_pre _
    (fun c hc cs => tryAlts_pat3_head (noY_www c hc) cs)]
  have hhit : tryAlts pat3 (("youtube.com/v/").data ++ (id ++ suffix)) =
      some id := by
    have e1 : pat3 = [("youtube.com/v/").data] := rfl
    rw [e1]
    exact tryAlts_cons_hit _ (matchLit_append_self _ _)
      (takeIdChars_append suffix hlen hid)
  have hcons : ("youtube.com/v/").data ++ (id ++ suffix) =
      'y' :: (("outube.com/v/").data ++ (id ++ suffix)) := rfl
  rw [hcons] at hhit ⊢
  exact searchPat_cons_hit hhit

lemma searchPatterns_cons_hit {p : List (List Char)}
    {ps : List (List (List Char))} {cs cap : List Char}
    (h : searchPat p cs = some cap) :
    searchPatterns (p :: ps) cs = some cap := by
  simp [searchPatterns, h]

lemma searchPatterns_cons_skip {p : List (List Char)}
    {ps : List (List (List Char))} {cs : List Char}
    (h : searchPat p cs = none) :
    searchPatterns (p :: ps) cs = searchPatterns ps cs := by
  simp [searchPatterns, h]

/-! ## Helper lemmas: renderer -/

lemma foldl_append_singleton (f : Entry → String) :
    ∀ (data : List Entry) (acc : List String),
      data.foldl (fun lines e => lines ++ [f e]) acc = acc ++ data.map f := by
  intro data
  induction data with
  | nil => intro acc; simp
  | cons e rest ih => intro acc; simp [List.foldl_cons, ih]

lemma format_transcript_eq_map (data : List Entry) (b : Bool) :
    format_transcript data b = joinLines "\n" (data.map (renderLine b)) := by
  unfold format_transcript
  have hf :
      (fun (lines : List String) (entry : Entry) =>
        if b then
          lines ++ ["[" ++ format_timestamp entry.start ++ "] " ++ entry.text]
        else
          lines ++ [entry.text]) =
      fun (lines : List String) (entry : Entry) =>
        lines ++ [renderLine b entry] := by
    funext lines entry
    cases b <;> simp [renderLine]
  rw [hf, foldl_append_singleton (renderLine b) data []]
  rfl

lemma joinLines_foldl_shift (sep : String) :
    ∀ (xs : List String) (a b : String),
      xs.foldl (fun acc y => acc ++ sep ++ y) (a ++ b) =
        a ++ xs.foldl (fun acc y => acc ++ sep ++ y) b := by
  intro xs
  induction xs with
  | nil => intro a b; rfl
  | cons y ys ih =>
    intro a b
    simp only [List.foldl_cons]
    rw [String.append_assoc a b sep, String.append_assoc a (b ++ sep) y, ih]

lemma joinLines_cons (sep x : String) (xs : List String) :
    joinLines sep (x :: xs) =
      x ++ (if xs.isEmpty then "" else sep ++ joinLines sep xs) := by
  cases xs with
  | nil => simp [joinLines]
  | cons y ys =>
    simp only [joinLines, List.foldl_cons, List.isEmpty_cons, if_neg]
    rw [String.append_assoc, joinLines_foldl_shift,
      joinLines_foldl_shift sep ys sep y]
    simp

/-! ## Helper lemmas: timestamp formatter -/

lemma pyInt_intCast (k : Int) : pyInt ((k : ℚ)) = k := by
  unfold pyInt
  split
  · exact Int.floor_intCast k
  · exact Int.ceil_intCast k

lemma pyMod_nonneg (a : ℚ) {b : ℚ} (hb : 0 < b) : 0 ≤ pyMod a b := by
  unfold pyMod
  have h1 : ((⌊a / b⌋ : Int) : ℚ) ≤ a / b := Int.floor_le (a / b)
  have h2 : b * ((⌊a / b⌋ : Int) : ℚ) ≤ b * (a / b) :=
    mul_le_mul_of_nonneg_left h1 hb.le
  have h3 : b * (a / b) = a := by
    field_simp
  linarith

lemma pyInt_pyMod (a : ℚ) {b : ℚ} (hb : 0 < b) :
    pyInt (pyMod a b) = ⌊pyMod a b⌋ := by
  unfold pyInt
  rw [if_pos (pyMod_nonneg a hb)]

/-! ## Resolver claims -/

lemma mkData (s : String) : String.mk s.data = s := rfl

lemma searchPatterns_shape {ps : List (List (List Char))} {cs cap : List Char}
    (h : searchPatterns ps cs = some cap) :
    cap.length = 11 ∧ cap.all isIdChar = true := by
  induction ps with
  | nil => simp [searchPatterns] at h
  | cons p ps ih =>
    simp only [searchPatterns] at h
    cases hp : searchPat p cs with
    | none => simp only [hp] at h; exact ih h
    | some cap2 =>
      simp only [hp, Option.some.injEq] at h
      subst h
      exact searchPat_shape hp

/-- C6: every input string that fully matches `^[A-Za-z0-9_-]{11}$` (anchored,
full-string match — exactly 11 identifier-alphabet characters) is returned
unchanged by `extract_video_id`; the bare-identifier check runs before any
URL-pattern extraction, so the result is the input itself. -/
theorem extract_bare_id (s : String) (hlen : s.data.length = 11)
    (hid : s.data.all isIdChar = true) :
    extract_video_id s = some s := by
  have hbare : pyMatchBare s.data = true := by
    simp [pyMatchBare, hlen, hid]
  unfold extract_video_id extractCore
  rw [hbare]
  simp [mkData]

/-- C6 witness: the bare identifier `dQw4w9WgXcQ` is returned unchanged. -/
theorem extract_bare_id_witness :
    ("dQw4w9WgXcQ").data.length = 11 ∧
      ("dQw4w9WgXcQ").data.all isIdChar = true ∧
      extract_video_id "dQw4w9WgXcQ" = some "dQw4w9WgXcQ" :=
  ⟨by decide, by decide, extract_bare_id "dQw4w9WgXcQ" (by decide) (by decide)⟩

/-- C7 counterexample: the 12-character input consisting of 11 identifier
characters followed by a newline neither fully matches the claimed anchored
11-character pattern nor contains any recognized URL shape, yet
`extract_video_id` returns it (Python's `$` matches before a trailing
newline), so the claim as stated is false. -/
theorem extract_none_cx :
    fullMatch11 ("abcdefghijk\n").data = false ∧
      searchPat pat1 ("abcdefghijk\n").data = none ∧
      searchPat pat2 ("abcdefghijk\n").data = none ∧
      searchPat pat3 ("abcdefghijk\n").data = none ∧
      extract_video_id "abcdefghijk\n" = some "abcdefghijk\n" :=
  ⟨by decide, by decide, by decide, by decide, by decide⟩

/-- C7 (amended): for every input string that does not match the
bare-identifier check under Python's `$` semantics (11 identifier characters,
optionally followed by a single trailing newline) and in which none of the
three URL patterns finds a match, `extract_video_id` returns `none`. -/
theorem extract_none_of_no_match (s : String)
    (hbare : pyMatchBare s.data = false)
    (h1 : searchPat pat1 s.data = none)
    (h2 : searchPat pat2 s.data = none)
    (h3 : searchPat pat3 s.data = none) :
    extract_video_id s = none := by
  unfold extract_video_id extractCore
  rw [hbare]
  simp only [Bool.false_eq_true, if_false]
  rw [searchPatterns_cons_skip h1, searchPatterns_cons_skip h2,
    searchPatterns_cons_skip h3]
  rfl

/-- C7 witness: `https://example.com` resolves to no identifier. -/
theorem extract_none_of_no_match_witness :
    pyMatchBare ("https://example.com").data = false ∧
      searchPat pat1 ("https://example.com").data = none ∧
      searchPat pat2 ("https://example.com").data = none ∧
      searchPat pat3 ("https://example.com").data = none ∧
      extract_video_id "https://example.com" = none :=
  ⟨by decide, by decide, by decide, by decide,
    extract_none_of_no_match "https://example.com"
      (by decide) (by decide) (by decide) (by decide)⟩

/-- C9 counterexample: `extract_video_id` succeeds on an 11-character
identifier followed by a newline and returns the 12-character string, which
is not an 11-character string over the identifier alphabet; the claimed
invariant is false as stated. -/
theorem extract_shape_cx :
    extract_video_id "AAAAAAAAAAA\n" = some "AAAAAAAAAAA\n" ∧
      ¬(("AAAAAAAAAAA\n").data.length = 11 ∧
        ("AAAAAAAAAAA\n").data.all isIdChar = true) :=
  ⟨by decide, by decide⟩

/-- C9 (amended): whenever `extract_video_id` succeeds, the returned value is
either exactly an 11-character string over `[A-Za-z0-9_-]`, or such a string
followed by one trailing newline (reachable only through the bare-identifier
branch, because Python's `$` matches before a final newline). -/
theorem extract_some_shape (s v : String) (h : extract_video_id s = some v) :
    (v.data.length = 11 ∧ v.data.all isIdChar = true) ∨
      (v.data.length = 12 ∧ (v.data.take 11).all isIdChar = true ∧
        v.data.getLast? = some '\n') := by
  unfold extract_video_id at h
  cases hc : extractCore s.data with
  | none => rw [hc] at h; simp at h
  | some cs =>
    rw [hc] at h
    simp only [Option.map_some', Option.some.injEq] at h
    subst h
    unfold extractCore at hc
    by_cases hbare : pyMatchBare s.data
    · rw [if_pos hbare] at hc
      simp only [Option.some.injEq] at hc
      subst hc
      unfold pyMatchBare at hbare
      simp only [Bool.or_eq_true, Bool.and_eq_true, beq_iff_eq] at hbare
      rcases hbare with ⟨h1, h2⟩ | ⟨⟨h1, h2⟩, h3⟩
      · exact Or.inl ⟨h1, h2⟩
      · exact Or.inr ⟨h1, h2, h3⟩
    · rw [if_neg hbare] at hc
      exact Or.inl (searchPatterns_shape hc)

/-- C9 witness: a successful resolution from a short-link URL yields a
well-formed 11-character identifier. -/
theorem extract_some_shape_witness :
    extract_video_id "https://youtu.be/abc-DEF_123" = some "abc-DEF_123" ∧
      ((("abc-DEF_123").data.length = 11 ∧
          ("abc-DEF_123").data.all isIdChar = true) ∨
        (("abc-DEF_123").data.length = 12 ∧
          (("abc-DEF_123").data.take 11).all isIdChar = true ∧
          ("abc-DEF_123").data.getLast? = some '\n')) :=
  ⟨by decide,
    extract_some_shape "https://youtu.be/abc-DEF_123" "abc-DEF_123" (by decide)⟩

/-- C5 counterexample: an embed-shape URL with a valid embedded ID and an
extra query parameter that itself contains a `youtu.be/` link resolves to the
ID inside the query parameter, not the embedded ID, because the watch/short
pattern is searched over the whole string first; the claim's "regardless of
extra query parameters appended after it" is false as stated. -/
theorem extract_url_shapes_cx :
    extract_video_id
        "https://www.youtube.com/embed/AAAAAAAAAAA?next=youtu.be/BBBBBBBBBBB" =
      some "BBBBBBBBBBB" ∧ ("BBBBBBBBBBB" : String) ≠ "AAAAAAAAAAA" :=
  ⟨by decide, by decide⟩

/-- C5 (amended): for the watch and short-link shapes, `extract_video_id`
returns the embedded 11-character ID for every appended suffix; for the embed
shape it does so provided the higher-priority watch/short pattern finds no
match after the embed prefix; for the `/v/` shape provided neither the
watch/short nor the embed pattern finds such a match; and on any non-bare
input the three extraction patterns are attempted in the order watch/short,
embed, `/v/`, the first successful match's capture being returned. -/
theorem extract_url_shapes :
    (∀ id suffix : String, id.data.length = 11 → id.data.all isIdChar = true →
        extract_video_id ("https://www.youtube.com/watch?v=" ++ id ++ suffix) =
          some id) ∧
      (∀ id suffix : String, id.data.length = 11 → id.data.all isIdChar = true →
        extract_video_id ("https://youtu.be/" ++ id ++ suffix) = some id) ∧
      (∀ id suffix : String, id.data.length = 11 → id.data.all isIdChar = true →
        searchPat pat1 (id.data ++ suffix.data) = none →
        extract_video_id ("https://www.youtube.com/embed/" ++ id ++ suffix) =
          some id) ∧
      (∀ id suffix : String, id.data.length = 11 → id.data.all isIdChar = true →
        searchPat pat1 (id.data ++ suffix.data) = none →
        searchPat pat2 (id.data ++ suffix.data) = none →
        extract_video_id ("https://www.youtube.com/v/" ++ id ++ suffix) =
          some id) ∧
      (∀ cs : List Char, pyMatchBare cs = false →
        extractCore cs = patternOrder cs) := by
  have hdata : ∀ (pre id suffix : String),
      (pre ++ id ++ suffix).data = pre.data ++ (id.data ++ suffix.data) := by
    intro pre id suffix
    rw [show (pre ++ id ++ suffix).data =
        (pre.data ++ id.data) ++ suffix.data from rfl, List.append_assoc]
  have horder : ∀ cs : List Char, pyMatchBare cs = false →
      extractCore cs = patternOrder cs := by
    intro cs h
    unfold extractCore patternOrder
    rw [h]
    simp only [Bool.false_eq_true, if_false]
    cases h1 : searchPat pat1 cs with
    | some cap => simp only [searchPatterns, h1]
    | none =>
      simp only [searchPatterns, h1]
      cases h2 : searchPat pat2 cs with
      | some cap => simp only [searchPatterns, h2]
      | none =>
        simp only [searchPatterns, h2]
        cases h3 : searchPat pat3 cs with
        | some cap => simp only [searchPatterns, h3]
        | none => simp only [searchPatterns, h3]
  refine ⟨?_, ?_, ?_, ?_, horder⟩
  · intro id suffix hlen hid
    have hlong : 12 < ("https://www.youtube.com/watch?v=" ++ id ++ suffix).data.length := by
      rw [hdata, List.length_append, List.length_append, hlen]
      have : ("https://www.youtube.com/watch?v=").data.length = 32 := by decide
      omega
    unfold extract_video_id extractCore
    rw [hdata, pyMatchBare_of_long (hdata _ _ _ ▸ hlong)]
    simp only [Bool.false_eq_true, if_false]
    rw [searchPatterns_cons_hit (searchPat_pat1_watch suffix.data hlen hid)]
    rw [Option.map_some', mkData]
  · intro id suffix hlen hid
    have hlong : 12 < ("https://youtu.be/" ++ id ++ suffix).data.length := by
      rw [hdata, List.length_append, List.length_append, hlen]
      have : ("https://youtu.be/").data.length = 17 := by decide
      omega
    unfold extract_video_id extractCore
    rw [hdata, pyMatchBare_of_long (hdata _ _ _ ▸ hlong)]
    simp only [Bool.false_eq_true, if_false]
    rw [searchPatterns_cons_hit (searchPat_pat1_short suffix.data hlen hid)]
    rw [Option.map_some', mkData]
  · intro id suffix hlen hid h1
    have hlong : 12 < ("https://www.youtube.com/embed/" ++ id ++ suffix).data.length := by
      rw [hdata, List.length_append, List.length_append, hlen]
      have : ("https://www.youtube.com/embed/").data.length = 30 := by decide
      omega
    unfold extract_video_id extractCore
    rw [hdata, pyMatchBare_of_long (hdata _ _ _ ▸ hlong)]
    simp only [Bool.false_eq_true, if_false]
    rw [searchPatterns_cons_skip (searchPat_pat1_embedStr _ h1)]
    rw [searchPatterns_cons_hit (searchPat_pat2_embed suffix.data hlen hid)]
    rw [Option.map_some', mkData]
  · intro id suffix hlen hid h1 h2
    have hlong : 12 < ("https://www.youtube.com/v/" ++ id ++ suffix).data.length := by
      rw [hdata, List.length_append, List.length_append, hlen]
      have : ("https://www.youtube.com/v/").data.length = 26 := by decide
      omega
    unfold extract_video_id extractCore
    rw [hdata, pyMatchBare_of_long (hdata _ _ _ ▸ hlong)]
    simp only [Bool.false_eq_true, if_false]
    rw [searchPatterns_cons_skip (searchPat_pat1_vStr _ h1)]
    rw [searchPatterns_cons_skip (searchPat_pat2_vStr _ h2)]
    rw [searchPatterns_cons_hit (searchPat_pat3_vStr suffix.data hlen hid)]
    rw [Option.map_some', mkData]

/-- C5 witness: all four URL shapes resolve their embedded identifier with a
benign query-parameter suffix, and the pattern-order equation holds on a
concrete non-bare input. -/
theorem extract_url_shapes_witness :
    extract_video_id ("https://www.youtube.com/watch?v=" ++ "AbCdEfGhIj5" ++ "&t=42s") =
        some "AbCdEfGhIj5" ∧
      extract_video_id ("https://youtu.be/" ++ "AbCdEfGhIj5" ++ "&t=42s") =
        some "AbCdEfGhIj5" ∧
      extract_video_id ("https://www.youtube.com/embed/" ++ "AbCdEfGhIj5" ++ "&t=42s") =
        some "AbCdEfGhIj5" ∧
      extract_video_id ("https://www.youtube.com/v/" ++ "AbCdEfGhIj5" ++ "&t=42s") =
        some "AbCdEfGhIj5" ∧
      extractCore ("nonsense").data = patternOrder ("nonsense").data :=
  ⟨extract_url_shapes.1 "AbCdEfGhIj5" "&t=42s" (by decide) (by decide),
    extract_url_shapes.2.1 "AbCdEfGhIj5" "&t=42s" (by decide) (by decide),
    extract_url_shapes.2.2.1 "AbCdEfGhIj5" "&t=42s"
      (by decide) (by decide) (by decide),
    extract_url_shapes.2.2.2.1 "AbCdEfGhIj5" "&t=42s"
      (by decide) (by decide) (by decide) (by decide),
    extract_url_shapes.2.2.2.2 ("nonsense").data (by decide)⟩

/-! ## Renderer claims -/

/-- C4: `format_transcript` maps each segment, in input order, to exactly one
line — `"[<formatted-start>] <text>"` with timestamps, else the text
verbatim — joined by a single newline with no trailing newline; the empty
list yields the empty string, and a non-empty list renders head line, then
a newline and the rendered tail only when the tail is non-empty. -/
theorem format_transcript_rendering :
    (∀ (data : List Entry) (b : Bool),
        format_transcript data b = render_spec data b) ∧
      (∀ b : Bool, format_transcript [] b = "") ∧
      (∀ (e : Entry) (rest : List Entry) (b : Bool),
        format_transcript (e :: rest) b =
          renderLine b e ++
            (if rest.isEmpty then "" else "\n" ++ format_transcript rest b)) := by
  refine ⟨fun data b => format_transcript_eq_map data b, ?_, ?_⟩
  · intro b
    rw [format_transcript_eq_map]
    rfl
  · intro e rest b
    rw [format_transcript_eq_map, List.map_cons, joinLines_cons,
      format_transcript_eq_map]
    cases rest <;> simp

/-- C10: the renderer's output depends only on the `start` and `text` fields
and the flag — two entry lists agreeing pointwise on `start` and `text`
(whatever their `duration` fields) render identically — and with timestamps
disabled it depends only on the `text` fields. -/
theorem format_transcript_noninterference :
    (∀ (d1 d2 : List Entry),
        List.Forall₂ (fun e1 e2 => e1.start = e2.start ∧ e1.text = e2.text)
          d1 d2 →
        ∀ b : Bool, format_transcript d1 b = format_transcript d2 b) ∧
      (∀ (d1 d2 : List Entry),
        List.Forall₂ (fun e1 e2 => e1.text = e2.text) d1 d2 →
        format_transcript d1 false = format_transcript d2 false) := by
  constructor
  · intro d1 d2 h b
    rw [format_transcript_eq_map, format_transcript_eq_map]
    congr 1
    induction h with
    | nil => rfl
    | @cons x y l1 l2 he ht ih =>
      rw [List.map_cons, List.map_cons, ih]
      have hline : renderLine b x = renderLine b y := by
        unfold renderLine
        rw [he.1, he.2]
      rw [hline]
  · intro d1 d2 h
    rw [format_transcript_eq_map, format_transcript_eq_map]
    congr 1
    induction h with
    | nil => rfl
    | @cons x y l1 l2 he ht ih =>
      rw [List.map_cons, List.map_cons, ih]
      have hline : renderLine false x = renderLine false y := by
        unfold renderLine
        rw [he]
        simp
      rw [hline]

/-- C10 witness: one-element lists differing only in `duration` render
identically with timestamps, and lists differing in `duration` and `start`
render identically without timestamps. -/
theorem format_transcript_noninterference_witness :
    format_transcript [Entry.mk 0 "Hello" (some 5)] true =
        format_transcript [Entry.mk 0 "Hello" none] true ∧
      format_transcript [Entry.mk 0 "Hi" (some 1)] false =
        format_transcript [Entry.mk 2 "Hi" none] false := by
  have hF1 : List.Forall₂ (fun e1 e2 => e1.start = e2.start ∧ e1.text = e2.text)
      [Entry.mk 0 "Hello" (some 5)] [Entry.mk 0 "Hello" none] :=
    List.Forall₂.cons ⟨rfl, rfl⟩ List.Forall₂.nil
  have hF2 : List.Forall₂ (fun e1 e2 => e1.text = e2.text)
      [Entry.mk 0 "Hi" (some 1)] [Entry.mk 2 "Hi" none] :=
    List.Forall₂.cons rfl List.Forall₂.nil
  exact ⟨format_transcript_noninterference.1 _ _ hF1 true,
    format_transcript_noninterference.2 _ _ hF2⟩

/-! ## Timestamp claim -/

/-- C3: for every non-negative number of seconds, `format_timestamp`
truncates to whole seconds with `hours = floor(s/3600)`,
`minutes = floor((s mod 3600)/60)`, `secs = floor(s mod 60)`, rendering
`HH:MM:SS` (fields zero-padded to width 2) when `hours > 0` and `MM:SS`
otherwise; in particular the six example values of the specification. -/
theorem format_timestamp_spec_eq :
    (∀ s : ℚ, 0 ≤ s → format_timestamp s = timestamp_spec s) ∧
      format_timestamp 0 = "00:00" ∧ format_timestamp 45.5 = "00:45" ∧
      format_timestamp 125.0 = "02:05" ∧ format_timestamp 3600 = "01:00:00" ∧
      format_timestamp 3661.0 = "01:01:01" ∧ format_timestamp 65.999 = "01:05" := by
  constructor
  · intro s _
    have h1 : pyInt (pyFloorDiv s 3600) = ⌊s / 3600⌋ := by
      unfold pyFloorDiv
      exact pyInt_intCast _
    have h2 : pyInt (pyFloorDiv (pyMod s 3600) 60) = ⌊qmod s 3600 / 60⌋ := by
      unfold pyFloorDiv
      exact pyInt_intCast _
    have h3 : pyInt (pyMod s 60) = ⌊qmod s 60⌋ := by
      rw [pyInt_pyMod s (show (0:ℚ) < 60 by norm_num)]
      rfl
    unfold format_timestamp timestamp_spec
    rw [h1, h2, h3]
  · refine ⟨?_, ?_, ?_, ?_, ?_, ?_⟩ <;>
      · norm_num [format_timestamp, pyInt, pyFloorDiv, pyMod]
        decide

/-- C3 witness: the formatter agrees with the specification formulas at the
concrete non-negative input 3661. -/
theorem format_timestamp_spec_eq_witness :
    (0:ℚ) ≤ 3661 ∧ format_timestamp 3661 = timestamp_spec 3661 :=
  ⟨by norm_num, format_timestamp_spec_eq.1 3661 (by norm_num)⟩

/-! ## Orchestrator claims -/

lemma tryLanguages_none {tl : TranscriptList} :
    ∀ {langs : List String},
      (∀ l ∈ langs, tl.find_transcript l = none) → tryLanguages tl langs = none := by
  intro langs
  induction langs with
  | nil => intro h; rfl
  | cons a as ih =>
    intro h
    simp only [tryLanguages, h a (List.mem_cons_self a as)]
    exact ih (fun l hl => h l (List.mem_cons_of_mem a hl))

/-- Concrete service data used by the orchestrator witnesses. -/
def demoData : List Entry := [Entry.mk 0 "Hello" none, Entry.mk (3/2) "World" none]

/-- A transcript handle whose fetch succeeds with `demoData`. -/
def demoHandle : TranscriptHandle := TranscriptHandle.mk (Except.ok demoData)

/-- A listing where only the generated-English lookup succeeds. -/
def demoGenList : TranscriptList :=
  TranscriptList.mk (fun _ => none) (some demoHandle) []

/-- A listing where only iteration yields a transcript. -/
def demoIterList : TranscriptList :=
  TranscriptList.mk (fun _ => none) none [demoHandle]

/-- A listing where only the English language lookup succeeds. -/
def demoPrefList : TranscriptList :=
  TranscriptList.mk (fun l => if l = "en" then some demoHandle else none) none []

/-- C1: under the no-preference policy — with no language preference, or when
every preferred language fails — `download_transcript` first attempts the
generated-transcript lookup and only on its failure takes the first
transcript of the listing iteration; when the generated lookup succeeds the
listing iteration is never consulted (the result is unchanged under any
replacement of the listing's iteration contents). -/
theorem download_no_pref_policy :
    (∀ (tl : TranscriptList) (t : TranscriptHandle) (data : List Entry),
        tl.find_generated_en = some t → t.fetchResult = Except.ok data →
        download_transcript (ServiceEnv.mk true (Except.ok tl)) [] =
          DlResult.ok (format_transcript data false)) ∧
      (∀ (tl : TranscriptList) (t : TranscriptHandle) (data : List Entry),
        tl.find_generated_en = none → tl.available.head? = some t →
        t.fetchResult = Except.ok data →
        download_transcript (ServiceEnv.mk true (Except.ok tl)) [] =
          DlResult.ok (format_transcript data false)) ∧
      (∀ (tl : TranscriptList) (langs : List String) (t : TranscriptHandle)
          (data : List Entry), langs ≠ [] →
        (∀ l ∈ langs, tl.find_transcript l = none) →
        tl.find_generated_en = some t → t.fetchResult = Except.ok data →
        download_transcript (ServiceEnv.mk true (Except.ok tl)) langs =
          DlResult.ok (format_transcript data false)) ∧
      (∀ (tl : TranscriptList) (langs : List String) (t : TranscriptHandle)
          (data : List Entry), langs ≠ [] →
        (∀ l ∈ langs, tl.find_transcript l = none) →
        tl.find_generated_en = none → tl.available.head? = some t →
        t.fetchResult = Except.ok data →
        download_transcript (ServiceEnv.mk true (Except.ok tl)) langs =
          DlResult.ok (format_transcript data false)) ∧
      (∀ (tl : TranscriptList) (t : TranscriptHandle)
          (avail2 : List TranscriptHandle) (langs : List String),
        (∀ l ∈ langs, tl.find_transcript l = none) →
        tl.find_generated_en = some t →
        download_transcript (ServiceEnv.mk true (Except.ok tl)) langs =
          download_transcript (ServiceEnv.mk true (Except.ok
            (TranscriptList.mk tl.find_transcript tl.find_generated_en avail2)))
            langs) := by
  refine ⟨?_, ?_, ?_, ?_, ?_⟩
  · intro tl t data hgen hfetch
    simp [download_transcript, selectTranscript, hgen, hfetch]
  · intro tl t data hgen hhead hfetch
    simp [download_transcript, selectTranscript, hgen, hhead, hfetch]
  · intro tl langs t data hne hfail hgen hfetch
    have hempty : langs.isEmpty = false := by
      cases langs with
      | nil => exact absurd rfl hne
      | cons a as => rfl
    simp [download_transcript, selectTranscript, hempty,
      tryLanguages_none hfail, hgen, hfetch]
  · intro tl langs t data hne hfail hgen hhead hfetch
    have hempty : langs.isEmpty = false := by
      cases langs with
      | nil => exact absurd rfl hne
      | cons a as => rfl
    simp [download_transcript, selectTranscript, hempty,
      tryLanguages_none hfail, hgen, hhead, hfetch]
  · intro tl t avail2 langs hfail hgen
    have h1 : tryLanguages tl langs = none := tryLanguages_none hfail
    have h2 : tryLanguages
        (TranscriptList.mk tl.find_transcript tl.find_generated_en avail2)
        langs = none :=
      @tryLanguages_none
        (TranscriptList.mk tl.find_transcript tl.find_generated_en avail2)
        langs hfail
    have h3 : tryLanguages
        (TranscriptList.mk tl.find_transcript (some t) avail2) langs = none :=
      @tryLanguages_none
        (TranscriptList.mk tl.find_transcript (some t) avail2) langs hfail
    cases hlangs : langs.isEmpty <;>
      simp [download_transcript, selectTranscript, hlangs, h1, h2, h3, hgen]

/-- C1 witness: the generated lookup is used when it succeeds (with or
without a failing preference list), the iteration head is used when it
fails, and the result with a successful generated lookup is independent of
the listing's iteration contents. -/
theorem download_no_pref_policy_witness :
    download_transcript (ServiceEnv.mk true (Except.ok demoGenList)) [] =
        DlResult.ok (format_transcript demoData false) ∧
      download_transcript (ServiceEnv.mk true (Except.ok demoIterList)) [] =
        DlResult.ok (format_transcript demoData false) ∧
      download_transcript (ServiceEnv.mk true (Except.ok demoGenList)) ["fr"] =
        DlResult.ok (format_transcript demoData false) ∧
      download_transcript (ServiceEnv.mk true (Except.ok demoIterList)) ["fr"] =
        DlResult.ok (format_transcript demoData false) ∧
      download_transcript (ServiceEnv.mk true (Except.ok demoGenList)) [] =
        download_transcript (ServiceEnv.mk true (Except.ok
          (TranscriptList.mk demoGenList.find_transcript
            demoGenList.find_generated_en [demoHandle]))) [] :=
  ⟨download_no_pref_policy.1 demoGenList demoHandle demoData rfl rfl,
    download_no_pref_policy.2.1 demoIterList demoHandle demoData rfl rfl rfl,
    download_no_pref_policy.2.2.1 demoGenList ["fr"] demoHandle demoData
      (by simp) (fun l _ => rfl) rfl rfl,
    download_no_pref_policy.2.2.2.1 demoIterList ["fr"] demoHandle demoData
      (by simp) (fun l _ => rfl) rfl rfl rfl,
    download_no_pref_policy.2.2.2.2 demoGenList demoHandle [demoHandle] []
      (fun l hl => absurd hl (List.not_mem_nil l)) rfl⟩

/-- C8: with a supplied preference list, `download_transcript` asks for each
language in list order and stops at the first success: if the first entry
fails and the second succeeds, the second language's transcript is fetched
and returned, for every further content of the list (and of the service's
behaviour on it). -/
theorem download_pref_first_success
    (tl : TranscriptList) (l1 l2 : String) (rest : List String)
    (t : TranscriptHandle) (data : List Entry)
    (hfail : tl.find_transcript l1 = none)
    (hsucc : tl.find_transcript l2 = some t)
    (hfetch : t.fetchResult = Except.ok data) :
    download_transcript (ServiceEnv.mk true (Except.ok tl)) (l1 :: l2 :: rest) =
      DlResult.ok (format_transcript data false) := by
  have hsel : selectTranscript tl (l1 :: l2 :: rest) = some t := by
    simp [selectTranscript, tryLanguages, hfail, hsucc]
  simp [download_transcript, hsel, hfetch]

/-- C8 witness: with preferences `["fr", "en", "de"]`, where French fails and
English succeeds, the English transcript is returned. -/
theorem download_pref_first_success_witness :
    demoPrefList.find_transcript "fr" = none ∧
      demoPrefList.find_transcript "en" = some demoHandle ∧
      demoHandle.fetchResult = Except.ok demoData ∧
      download_transcript (ServiceEnv.mk true (Except.ok demoPrefList))
          ["fr", "en", "de"] =
        DlResult.ok (format_transcript demoData false) :=
  ⟨rfl, rfl, rfl,
    download_pref_first_success demoPrefList "fr" "en" ["de"] demoHandle
      demoData rfl rfl rfl⟩

/-- C2 counterexample: the fetch orchestrator is itself a process-terminating
function: when the service's listing call fails, `download_transcript` does
not return an error value but reports and exits with code 1, refuting the
claim that all core functions are free of process-termination effects. -/
theorem download_core_exit_cx :
    download_transcript
        (ServiceEnv.mk true (Except.error "TranscriptsDisabled")) [] =
      DlResult.exit 1 := rfl

/-- C2 (amended): the identifier resolver, timestamp formatter and transcript
renderer are pure value-returning functions, but the fetch orchestrator is
not: `download_transcript` either returns a transcript or terminates the
process with exit code 1, and it does terminate — on a missing dependency
and on a failed listing call — instead of returning an error value to a
top-level handler. -/
theorem download_exit_on_failure (env : ServiceEnv) (languages : List String) :
    ((∃ s, download_transcript env languages = DlResult.ok s) ∨
        download_transcript env languages = DlResult.exit 1) ∧
      (env.importOk = false →
        download_transcript env languages = DlResult.exit 1) ∧
      (∀ e, env.listResult = Except.error e →
        download_transcript env languages = DlResult.exit 1) := by
  obtain ⟨imp, lr⟩ := env
  refine ⟨?_, ?_, ?_⟩
  · cases imp with
    | false => exact Or.inr rfl
    | true =>
      cases lr with
      | error e => exact Or.inr rfl
      | ok tl =>
        cases hsel : selectTranscript tl languages with
        | none => exact Or.inr (by simp [download_transcript, hsel])
        | some t =>
          cases hf : t.fetchResult with
          | error e => exact Or.inr (by simp [download_transcript, hsel, hf])
          | ok d =>
            exact Or.inl ⟨format_transcript d false,
              by simp [download_transcript, hsel, hf]⟩
  · intro h
    subst h
    rfl
  · intro e he
    cases imp with
    | false => rfl
    | true => subst he; rfl

/-- C2 witness: with the transcript-api dependency unavailable, the
orchestrator terminates the process with exit code 1. -/
theorem download_exit_on_failure_witness :
    download_transcript (ServiceEnv.mk false (Except.error "ImportError")) [] =
      DlResult.exit 1 :=
  (download_exit_on_failure
    (ServiceEnv.mk false (Except.error "ImportError")) []).2.1 rfl

end Ytsum
